import Mathlib

/-!
Shallow embedding of the capper-times synchronization core.

Server side (`src/server.py`): connection registry, broadcast fan-out,
role-claim arbitration.  Client side (`src/main.py`): the reducers that
apply incoming `start` / `board_update` events and derive the effective
board display state.

Connections (Python websocket objects) are modelled by numeric handles;
the Python dict `role_claims` is modelled by an association list whose
operations mirror dict get / assignment / pop; the Python set `clients`
is modelled by a duplicate-free list.  Delivery failures
(`websockets.exceptions.ConnectionClosed` raised by `send`) are modelled
by a predicate `closed : ConnId → Bool` saying which connections raise.
-/

abbrev ConnId := Nat

/-- The two locked role names (`server.py` line 21, `main.py` line 60). -/
def LOCKED_ROLES : List String := ["Capper 1", "Capper 2"]

/-- One entry of the server's `role_claims` dict: `{"id": sender, "ws": websocket}`
(`server.py` line 106).  `sender` comes from `data.get("sender")` and may be
absent, hence `Option`. -/
structure Owner where
  id : Option String
  ws : ConnId
deriving DecidableEq, Repr

abbrev RoleClaims := List (String × Owner)

/-- Python `role_claims.get(role)`. -/
def dictGet (d : RoleClaims) (k : String) : Option Owner :=
  (d.find? (fun p => p.1 == k)).map (fun p => p.2)

/-- Python `role_claims[role] = v`: replace in place if the key is present,
append otherwise. -/
def dictSet (d : RoleClaims) (k : String) (v : Owner) : RoleClaims :=
  if d.any (fun p => p.1 == k) then d.map (fun p => if p.1 == k then (k, v) else p)
  else d ++ [(k, v)]

/-- Python `role_claims.pop(role, None)`. -/
def dictPop (d : RoleClaims) (k : String) : RoleClaims :=
  d.filter (fun p => !(p.1 == k))

/-- `_roles_payload` (`server.py` lines 136-141): one entry per locked role,
`owner.get("id")` if claimed, `None` otherwise. -/
def rolesPayload (claims : RoleClaims) : List (String × Option String) :=
  LOCKED_ROLES.map (fun role => (role, (dictGet claims role).bind (fun o => o.id)))

/-- Payload of an incoming `start` frame as read by `data.get` on the server
(`server.py` lines 56-61): every field may be absent. -/
structure StartData where
  seconds : Option Int
  sender : Option String
  capper : Option Int
deriving DecidableEq, Repr

/-- Payload of an incoming `board_update` frame (`server.py` lines 78-84). -/
structure BoardUpdateData where
  board : Option String
  index : Option Int
  state : Option Int
  sender : Option String
deriving DecidableEq, Repr

/-- The re-serialized `start` broadcast: same fields, with
`data.get("capper", 1)` defaulting the capper slot (`server.py` line 60). -/
structure StartBroadcast where
  seconds : Option Int
  sender : Option String
  capper : Int
deriving DecidableEq, Repr

/-- Build the broadcast body for a `start` event (`server.py` lines 56-61). -/
def startBroadcast (d : StartData) : StartBroadcast :=
  { seconds := d.seconds, sender := d.sender, capper := d.capper.getD 1 }

/-- Messages the server sends to clients. -/
inductive ServerMsg where
  | authRequired
  | authFailed
  | connected (clients : Nat)
  | roleStatus (roles : List (String × Option String))
  | roleResult (role : String) (ok : Bool)
  | startB (b : StartBroadcast)
  | boardB (d : BoardUpdateData)
deriving DecidableEq, Repr

/-- The server's mutable globals: the `clients` set and the `role_claims`
dict (`server.py` lines 19-22). -/
structure ServerState where
  clients : List ConnId
  roleClaims : RoleClaims
deriving DecidableEq, Repr

def serverInit : ServerState := { clients := [], roleClaims := [] }

/-- The fan-out loop for `start` / `board_update` (`server.py` lines 63-72):
send to every registered connection except the sender; a send to a closed
connection raises and puts it in `disconnected`; afterwards
`clients.difference_update(disconnected)`.  Returns (sends, new clients). -/
def fanout (clients : List ConnId) (sender : ConnId) (closed : ConnId → Bool)
    (msg : ServerMsg) : List (ConnId × ServerMsg) × List ConnId :=
  ((clients.filter (fun c => c != sender && !(closed c))).map (fun c => (c, msg)),
   clients.filter (fun c => !(c != sender && closed c)))

/-- `_broadcast_role_status` (`server.py` lines 144-152): send to every
registered connection; closed ones are collected and dropped from the
registry.  Returns (sends, new clients). -/
def broadcastAll (clients : List ConnId) (closed : ConnId → Bool)
    (msg : ServerMsg) : List (ConnId × ServerMsg) × List ConnId :=
  ((clients.filter (fun c => !(closed c))).map (fun c => (c, msg)),
   clients.filter (fun c => !(closed c)))

/-- `clients.add(websocket)` (`server.py` line 30), with set semantics. -/
def connectRegister (clients : List ConnId) (ws : ConnId) : List ConnId :=
  if ws ∈ clients then clients else clients ++ [ws]

/-- The connect path with no password configured (`server.py` lines 30, 42-43):
register the connection, then send the `connected` ack and the `role_status`
snapshot to it. -/
def handleConnect (s : ServerState) (ws : ConnId) :
    ServerState × List (ConnId × ServerMsg) :=
  let clients := connectRegister s.clients ws
  ({ s with clients := clients },
   [(ws, ServerMsg.connected clients.length),
    (ws, ServerMsg.roleStatus (rolesPayload s.roleClaims))])

/-- The connect path with a password configured, up to the auth exchange
(`server.py` lines 30, 34-36): the connection is added to the registry
FIRST (line 30), and only then is `auth_required` sent and the reply
awaited. -/
def connectPreAuth (s : ServerState) (ws : ConnId) :
    ServerState × List (ConnId × ServerMsg) :=
  ({ s with clients := connectRegister s.clients ws }, [(ws, ServerMsg.authRequired)])

/-- A failed password check (`server.py` lines 38-40): send `auth_failed` and
return from the handler body; the registry is untouched until the `finally`
block (modelled separately by `handleDisconnect`) runs. -/
def authFailedReply (s : ServerState) (ws : ConnId) :
    ServerState × List (ConnId × ServerMsg) :=
  (s, [(ws, ServerMsg.authFailed)])

/-- The `cmd == "start"` branch (`server.py` lines 54-76). -/
def handleStart (closed : ConnId → Bool) (s : ServerState) (ws : ConnId)
    (d : StartData) : ServerState × List (ConnId × ServerMsg) :=
  let f := fanout s.clients ws closed (ServerMsg.startB (startBroadcast d))
  ({ s with clients := f.2 }, f.1)

/-- The `cmd == "board_update"` branch (`server.py` lines 77-99): the four
fields are copied over unchanged. -/
def handleBoardUpdate (closed : ConnId → Bool) (s : ServerState) (ws : ConnId)
    (d : BoardUpdateData) : ServerState × List (ConnId × ServerMsg) :=
  let f := fanout s.clients ws closed (ServerMsg.boardB d)
  ({ s with clients := f.2 }, f.1)

/-- The `cmd == "role_claim"` branch (`server.py` lines 100-114).  The claim
succeeds iff the role is unclaimed or the existing claim's `"ws"` equals the
requesting websocket.  On success the claim entry is overwritten, the
requester gets `role_result ok:true`, and `role_status` is broadcast to all
connections; on failure only `role_result ok:false` goes to the requester.
A closed requester makes the reply raise, which the per-message `except`
swallows, so nothing after the raising `send` runs. -/
def handleRoleClaim (closed : ConnId → Bool) (s : ServerState) (ws : ConnId)
    (role sender : Option String) : ServerState × List (ConnId × ServerMsg) :=
  match role with
  | none => (s, [])
  | some r =>
    if r ∈ LOCKED_ROLES then
      let ok := match dictGet s.roleClaims r with
        | none => true
        | some o => o.ws == ws
      if ok then
        let claims := dictSet s.roleClaims r { id := sender, ws := ws }
        if closed ws then
          ({ s with roleClaims := claims }, [])
        else
          let b := broadcastAll s.clients closed
            (ServerMsg.roleStatus (rolesPayload claims))
          ({ clients := b.2, roleClaims := claims },
           (ws, ServerMsg.roleResult r true) :: b.1)
      else
        if closed ws then (s, []) else (s, [(ws, ServerMsg.roleResult r false)])
    else (s, [])

/-- The `cmd == "role_release"` branch (`server.py` lines 115-119): only the
owning websocket may release; on release, `role_status` is broadcast. -/
def handleRoleRelease (closed : ConnId → Bool) (s : ServerState) (ws : ConnId)
    (role : Option String) : ServerState × List (ConnId × ServerMsg) :=
  match role with
  | none => (s, [])
  | some r =>
    if r ∈ LOCKED_ROLES then
      match dictGet s.roleClaims r with
      | some o =>
        if o.ws == ws then
          let claims := dictPop s.roleClaims r
          let b := broadcastAll s.clients closed
            (ServerMsg.roleStatus (rolesPayload claims))
          ({ clients := b.2, roleClaims := claims }, b.1)
        else (s, [])
      | none => (s, [])
    else (s, [])

/-- `_release_roles_for_client` (`server.py` lines 155-165), claims part:
pop every role whose `"ws"` matches the closed websocket. -/
def releaseRolesForClient (claims : RoleClaims) (ws : ConnId) : RoleClaims :=
  claims.filter (fun p => !(p.2.ws == ws))

/-- The `finally` block of `handle_client` (`server.py` lines 130-133):
`clients.discard(websocket)`, release the disconnecting connection's roles,
and broadcast one `role_status` if anything was released. -/
def handleDisconnect (closed : ConnId → Bool) (s : ServerState) (ws : ConnId) :
    ServerState × List (ConnId × ServerMsg) :=
  let clients1 := s.clients.filter (fun c => c != ws)
  let released := s.roleClaims.any (fun p => p.2.ws == ws)
  let claims := releaseRolesForClient s.roleClaims ws
  if released then
    let b := broadcastAll clients1 closed
      (ServerMsg.roleStatus (rolesPayload claims))
    ({ clients := b.2, roleClaims := claims }, b.1)
  else
    ({ clients := clients1, roleClaims := claims }, [])

/-- One observable server event (a connection appearing, one inbound frame,
or a disconnect). -/
inductive ServerEvent where
  | connect (ws : ConnId)
  | startEvt (ws : ConnId) (d : StartData)
  | boardEvt (ws : ConnId) (d : BoardUpdateData)
  | roleClaim (ws : ConnId) (role sender : Option String)
  | roleRelease (ws : ConnId) (role : Option String)
  | disconnect (ws : ConnId)
deriving DecidableEq, Repr

def handleEvent (closed : ConnId → Bool) (s : ServerState) :
    ServerEvent → ServerState × List (ConnId × ServerMsg)
  | ServerEvent.connect ws => handleConnect s ws
  | ServerEvent.startEvt ws d => handleStart closed s ws d
  | ServerEvent.boardEvt ws d => handleBoardUpdate closed s ws d
  | ServerEvent.roleClaim ws role sender => handleRoleClaim closed s ws role sender
  | ServerEvent.roleRelease ws role => handleRoleRelease closed s ws role
  | ServerEvent.disconnect ws => handleDisconnect closed s ws

def processTrace (closed : ConnId → Bool) (s : ServerState) :
    List ServerEvent → ServerState
  | [] => s
  | e :: es => processTrace closed (handleEvent closed s e).1 es

/-- Identity `x` holds `role` in server state `s`: some claim entry for that
role records `x` as its owner id. -/
def holdsRole (s : ServerState) (x : String) (role : String) : Prop :=
  ∃ o : Owner, (role, o) ∈ s.roleClaims ∧ o.id = some x

/-- Key-uniqueness of the claims table, the invariant a Python dict gives
for free. -/
def keysNodup (d : RoleClaims) : Prop :=
  d.Pairwise (fun p q => p.1 ≠ q.1)

/-! ## Client model (`src/main.py`) -/

/-- `BOARD_ASSETS` (`main.py` line 59). -/
def BOARD_ASSETS : List String := ["Generator", "Turret 1", "Turret 2", "Radar / Sensor"]

/-- Local client state: the two raw boards (`self.board_states`), the last
started countdown per capper slot (TimerState, abstracted to the seconds
the slot was last started from), and the role-ownership view
(`self.role_owners`). -/
structure ClientState where
  defense : List Int
  offense : List Int
  timerCapper1 : Option Int
  timerCapper2 : Option Int
  roleOwners : List (String × Option String)
deriving DecidableEq, Repr

/-- Initial client state (`main.py` lines 844-850): all-zero boards, no
timers running, no role owners. -/
def clientInit : ClientState :=
  { defense := List.replicate BOARD_ASSETS.length 0,
    offense := List.replicate BOARD_ASSETS.length 0,
    timerCapper1 := none, timerCapper2 := none,
    roleOwners := LOCKED_ROLES.map (fun r => (r, none)) }

/-- `board in self.board_states` plus the lookup: the dict has exactly the
keys `"defense"` and `"offense"` for the whole process lifetime. -/
def boardOf (st : ClientState) (board : String) : Option (List Int) :=
  if board = "defense" then some st.defense
  else if board = "offense" then some st.offense
  else none

def setBoardList (st : ClientState) (board : String) (bs : List Int) : ClientState :=
  if board = "defense" then { st with defense := bs }
  else if board = "offense" then { st with offense := bs }
  else st

/-- `CapTimerApp._apply_board_update` (`main.py` lines 1164-1174): guard the
board name, the index range and the state range, collapse state 1 to 0, then
write the cell. -/
def applyBoardUpdate (st : ClientState) (board : String) (index state : Int) :
    ClientState :=
  match boardOf st board with
  | none => st
  | some bs =>
    if index < 0 ∨ (bs.length : Int) ≤ index then st
    else if ¬(state = 0 ∨ state = 1 ∨ state = 2) then st
    else setBoardList st board
      (bs.set index.toNat (if state = 1 then 0 else state))

/-- `_effective_board_states` (`main.py` lines 1070-1078), step 1: every
marker equal to 1 becomes 0. -/
def collapseInProgress (states : List Int) : List Int :=
  states.map (fun v => if v = 1 then 0 else v)

/-- `_effective_board_states` (`main.py` lines 1070-1078): collapse state 1
to 0, then, if the post-collapse generator cell is 2, force every other
cell to 1. -/
def effectiveBoardStates (states : List Int) : List Int :=
  match collapseInProgress states with
  | [] => []
  | g :: rest => if g = 2 then g :: rest.map (fun _ => (1 : Int)) else g :: rest

/-- `start_timer_signal.emit(index, sec)` as seen by TimerState: slot
`index` now runs from `sec`. -/
def startTimer (st : ClientState) (index : Nat) (sec : Int) : ClientState :=
  if index = 0 then { st with timerCapper1 := some sec }
  else if index = 1 then { st with timerCapper2 := some sec }
  else st

/-- Shared tail of the `start` branches (`main.py` lines 130-138 and
1192-1199): default the capper slot to 1, require `capper - 1 ∈ {0, 1}`,
then start that slot's countdown. -/
def applyStartSeconds (st : ClientState) (d : StartData) (sec : Int) : ClientState :=
  let capper := d.capper.getD 1
  if capper - 1 = 0 ∨ capper - 1 = 1 then startTimer st (capper - 1).toNat sec
  else st

/-- Shared tail of the `board_update` branches (`main.py` lines 142-151 and
1200-1210): validate board name, index and state, then run the reducer. -/
def applyBoardMsg (st : ClientState) (d : BoardUpdateData) : ClientState :=
  match d.board with
  | none => st
  | some b =>
    if b = "defense" ∨ b = "offense" then
      let index := d.index.getD (-1)
      let state := d.state.getD (-1)
      if index < 0 ∨ (BOARD_ASSETS.length : Int) ≤ index then st
      else if state = 0 ∨ state = 1 ∨ state = 2 then applyBoardUpdate st b index state
      else st
    else st

/-- `handle_role_status` (`main.py` lines 1026-1028): for each locked role,
`role_owners[role] = roles.get(role)`.  The status-bar and settings-UI
updates in the same handler are presentation only. -/
def handleRoleStatus (st : ClientState) (roles : List (String × Option String)) :
    ClientState :=
  { st with roleOwners :=
      LOCKED_ROLES.map (fun r =>
        (r, ((roles.find? (fun p => p.1 == r)).map (fun p => p.2)).join)) }

/-- A message as seen by the client listeners. -/
inductive ClientMsg where
  | start (d : StartData)
  | boardUpdate (d : BoardUpdateData)
  | roleStatus (roles : List (String × Option String))
  | roleResult (role : Option String) (ok : Bool)
deriving DecidableEq, Repr

def senderOf : ClientMsg → Option String
  | ClientMsg.start d => d.sender
  | ClientMsg.boardUpdate d => d.sender
  | ClientMsg.roleStatus _ => none
  | ClientMsg.roleResult _ _ => none

/-- One step of `WebSocketClient._listen` (`main.py` lines 122-159).  For
`start`, the `"seconds" in data` test comes first, then the own-sender
check; for `board_update` the own-sender check comes first.  `role_result`
only adjusts the local role-selection UI state (`handle_role_result`,
lines 1033-1044), which lives outside the board/timer/ownership-view state
modelled here. -/
def wsListen (myId : String) (st : ClientState) (m : ClientMsg) : ClientState :=
  match m with
  | ClientMsg.start d =>
    match d.seconds with
    | none => st
    | some sec =>
      if d.sender = some myId then st
      else applyStartSeconds st d sec
  | ClientMsg.boardUpdate d =>
    if d.sender = some myId then st
    else applyBoardMsg st d
  | ClientMsg.roleStatus roles => handleRoleStatus st roles
  | ClientMsg.roleResult _ _ => st

/-- One datagram of `_udp_listener` (`main.py` lines 1183-1210): the
own-sender check runs before the command dispatch, and only `start` and
`board_update` are handled. -/
def udpListen (myId : String) (st : ClientState) (m : ClientMsg) : ClientState :=
  if senderOf m = some myId then st
  else
    match m with
    | ClientMsg.start d =>
      match d.seconds with
      | none => st
      | some sec => applyStartSeconds st d sec
    | ClientMsg.boardUpdate d => applyBoardMsg st d
    | ClientMsg.roleStatus _ => st
    | ClientMsg.roleResult _ _ => st

/-! ## Dictionary lemmas -/

theorem fst_dictSetFun (k : String) (v : Owner) (p : String × Owner) :
    (if p.1 == k then (k, v) else p).1 = p.1 := by
  by_cases h : (p.1 == k) = true
  · simp [h, (beq_iff_eq.mp h).symm]
  · simp [h]

theorem keysNodup_dictSet (d : RoleClaims) (k : String) (v : Owner)
    (h : keysNodup d) : keysNodup (dictSet d k v) := by
  unfold dictSet
  split
  · rw [keysNodup, List.pairwise_map]
    refine h.imp ?_
    intro p q hpq
    simpa only [fst_dictSetFun] using hpq
  · rename_i hany
    rw [keysNodup, List.pairwise_append]
    refine ⟨h, List.pairwise_singleton _ _, ?_⟩
    intro a ha b hb
    have hb' : b = (k, v) := by simpa using hb
    subst hb'
    intro hkey
    apply hany
    exact List.any_eq_true.mpr ⟨a, ha, by simpa using hkey⟩

theorem keysNodup_filter (d : RoleClaims) (f : String × Owner → Bool)
    (h : keysNodup d) : keysNodup (d.filter f) :=
  List.Pairwise.filter f h

theorem mem_unique_of_keysNodup {d : RoleClaims} (h : keysNodup d)
    {k : String} {o1 o2 : Owner} (h1 : (k, o1) ∈ d) (h2 : (k, o2) ∈ d) :
    o1 = o2 := by
  induction d with
  | nil => cases h1
  | cons p rest ih =>
    have hc := List.pairwise_cons.mp h
    rcases List.mem_cons.mp h1 with h1h | h1t <;>
      rcases List.mem_cons.mp h2 with h2h | h2t
    · exact congrArg Prod.snd (h1h.trans h2h.symm)
    · exfalso
      have hne := hc.1 _ h2t
      rw [← h1h] at hne
      exact hne rfl
    · exfalso
      have hne := hc.1 _ h1t
      rw [← h2h] at hne
      exact hne rfl
    · exact ih hc.2 h1t h2t

theorem filterKey_length_le_one {d : RoleClaims} (h : keysNodup d)
    (role : String) : (d.filter (fun p => p.1 == role)).length ≤ 1 := by
  induction d with
  | nil => simp
  | cons p rest ih =>
    have hc := List.pairwise_cons.mp h
    by_cases hp : (p.1 == role) = true
    · have hrest : rest.filter (fun p => p.1 == role) = [] := by
        refine List.filter_eq_nil_iff.mpr ?_
        intro q hq
        have hne : p.1 ≠ q.1 := hc.1 q hq
        simp only [beq_iff_eq] at hp ⊢
        rw [← hp]
        exact fun hqe => hne hqe.symm
      simp [List.filter_cons, hp, hrest]
    · simpa [List.filter_cons, hp] using ih hc.2

theorem find?_map_dictSetFun (d : RoleClaims) (k : String) (v : Owner) :
    (d.map (fun p => if p.1 == k then (k, v) else p)).find? (fun p => p.1 == k) =
      if d.any (fun p => p.1 == k) then some (k, v) else none := by
  induction d with
  | nil => simp
  | cons p rest ih =>
    rw [List.map_cons, List.any_cons]
    by_cases hpk : (p.1 == k) = true
    · rw [if_pos hpk, List.find?_cons_of_pos _ (by simp), hpk, Bool.true_or, if_pos rfl]
    · rw [if_neg hpk,
        List.find?_cons_of_neg (p := fun q : String × Owner => q.1 == k) _ hpk, ih]
      have hf : (p.1 == k) = false := by simpa using hpk
      rw [hf, Bool.false_or]

theorem dictGet_dictSet_self (d : RoleClaims) (k : String) (v : Owner) :
    dictGet (dictSet d k v) k = some v := by
  unfold dictGet dictSet
  split
  · rename_i hany
    rw [find?_map_dictSetFun]
    simp [hany]
  · rename_i hany
    have hd : d.find? (fun p => p.1 == k) = none := by
      rw [List.find?_eq_none]
      intro x hx hxk
      exact hany (List.any_eq_true.mpr ⟨x, hx, hxk⟩)
    simp [List.find?_append, hd, List.find?_cons]

/-! ## Key-uniqueness is an invariant of the server loop -/

theorem keysNodup_handleEvent (closed : ConnId → Bool) (s : ServerState)
    (e : ServerEvent) (h : keysNodup s.roleClaims) :
    keysNodup (handleEvent closed s e).1.roleClaims := by
  cases e with
  | connect ws => exact h
  | startEvt ws d => exact h
  | boardEvt ws d => exact h
  | roleClaim ws role sender =>
    rcases role with _ | r
    · exact h
    · simp only [handleEvent, handleRoleClaim]
      split
      · split
        · split
          · exact keysNodup_dictSet _ _ _ h
          · exact keysNodup_dictSet _ _ _ h
        · split
          · exact h
          · exact h
      · exact h
  | roleRelease ws role =>
    rcases role with _ | r
    · exact h
    · simp only [handleEvent, handleRoleRelease]
      split
      · split
        · split
          · exact keysNodup_filter _ _ h
          · exact h
        · exact h
      · exact h
  | disconnect ws =>
    simp only [handleEvent, handleDisconnect]
    split
    · exact keysNodup_filter _ _ h
    · exact keysNodup_filter _ _ h

theorem keysNodup_processTrace (closed : ConnId → Bool) (tr : List ServerEvent) :
    ∀ s : ServerState, keysNodup s.roleClaims →
      keysNodup (processTrace closed s tr).roleClaims := by
  induction tr with
  | nil => exact fun s h => h
  | cons e es ih => exact fun s h => ih _ (keysNodup_handleEvent closed s e h)

/-- Claim C1: for every sequence of role_claim / role_release / disconnect
(and connect / data) events processed by the relay server from its initial
state, the claims table holds at most one RoleClaim per locked role name,
and no two distinct identities simultaneously hold the same role. -/
theorem role_claims_at_most_one_owner :
    ∀ (closed : ConnId → Bool) (tr : List ServerEvent) (role : String),
      (((processTrace closed serverInit tr).roleClaims.filter
          (fun p => p.1 == role)).length ≤ 1) ∧
      (∀ x y : String, holdsRole (processTrace closed serverInit tr) x role →
        holdsRole (processTrace closed serverInit tr) y role → x = y) := by
  intro closed tr role
  have hnd : keysNodup (processTrace closed serverInit tr).roleClaims :=
    keysNodup_processTrace closed tr serverInit List.Pairwise.nil
  refine ⟨filterKey_length_le_one hnd role, ?_⟩
  rintro x y ⟨o1, m1, id1⟩ ⟨o2, m2, id2⟩
  have ho : o1 = o2 := mem_unique_of_keysNodup hnd m1 m2
  rw [← ho] at id2
  exact Option.some.inj (id1.symm.trans id2)

/-- Witness for C1 at a concrete trace. -/
theorem role_claims_at_most_one_owner_witness :
    ((processTrace (fun _ => false) serverInit
        [ServerEvent.connect 1,
         ServerEvent.roleClaim 1 (some "Capper 1") (some "X")]).roleClaims.filter
        (fun p => p.1 == "Capper 1")).length ≤ 1 :=
  (role_claims_at_most_one_owner (fun _ => false) _ "Capper 1").1

/-! ## Role re-claim and failed-claim behaviour -/

/-- Counterexample to claim C2 as stated: connection 1 claims "Capper 1" as
sender "X"; a re-claim of "Capper 1" carrying the very senderId recorded as
the owner ("X") but arriving on a different connection (2) is answered
roleResult ok:false and the claim stays bound to connection 1 — the server
compares the claim's websocket, not its senderId. -/
theorem reclaim_by_owner_id_counterexample :
    (handleRoleClaim (fun _ => false)
        (processTrace (fun _ => false) serverInit
          [ServerEvent.connect 1, ServerEvent.connect 2,
           ServerEvent.roleClaim 1 (some "Capper 1") (some "X")])
        2 (some "Capper 1") (some "X")).2 =
      [(2, ServerMsg.roleResult "Capper 1" false)] ∧
    (handleRoleClaim (fun _ => false)
        (processTrace (fun _ => false) serverInit
          [ServerEvent.connect 1, ServerEvent.connect 2,
           ServerEvent.roleClaim 1 (some "Capper 1") (some "X")])
        2 (some "Capper 1") (some "X")).1.roleClaims =
      [("Capper 1", { id := some "X", ws := 1 })] := by
  decide

/-- Claim C2 (amended): a role_claim for a locked role coming from the
connection the claim is currently bound to always succeeds — the requester
is answered roleResult ok:true (first send), the claim becomes
(requester senderId, that connection), and when the requester's senderId
equals the recorded owner id the claim's owner record is unchanged. -/
theorem reclaim_by_owner_connection_succeeds :
    ∀ (closed : ConnId → Bool) (s : ServerState) (ws : ConnId) (r : String)
      (sender : Option String) (o : Owner),
      r ∈ LOCKED_ROLES → dictGet s.roleClaims r = some o → o.ws = ws →
      closed ws = false →
      dictGet (handleRoleClaim closed s ws (some r) sender).1.roleClaims r =
        some { id := sender, ws := ws } ∧
      ((handleRoleClaim closed s ws (some r) sender).2).head? =
        some (ws, ServerMsg.roleResult r true) ∧
      (sender = o.id →
        dictGet (handleRoleClaim closed s ws (some r) sender).1.roleClaims r =
          some o) := by
  intro closed s ws r sender o hr hget hws hcl
  subst hws
  simp only [handleRoleClaim]
  rw [if_pos hr, hget]
  simp only [beq_self_eq_true]
  rw [if_pos trivial, hcl, if_neg Bool.false_ne_true]
  refine ⟨dictGet_dictSet_self _ _ _, rfl, fun hsid => ?_⟩
  rw [dictGet_dictSet_self, hsid]

/-- Witness for the amended C2: a same-connection re-claim by the recorded
owner leaves the claim record unchanged. -/
theorem reclaim_by_owner_connection_succeeds_witness :
    dictGet (handleRoleClaim (fun _ => false)
        { clients := [5], roleClaims := [("Capper 1", { id := some "X", ws := 5 })] }
        5 (some "Capper 1") (some "X")).1.roleClaims "Capper 1" =
      some { id := some "X", ws := 5 } :=
  (reclaim_by_owner_connection_succeeds (fun _ => false) _ 5 "Capper 1" (some "X")
      { id := some "X", ws := 5 } (by decide) (by decide) rfl rfl).2.2 rfl

/-- Claim C8: a role_claim for a locked role currently claimed by a different
connection is a pure reply — roleResult ok:false goes to the requester and
nothing else: the claims table, the registry, and every other connection's
inbox are untouched. -/
theorem failed_claim_frame :
    ∀ (closed : ConnId → Bool) (s : ServerState) (ws : ConnId) (r : String)
      (sender : Option String) (o : Owner),
      r ∈ LOCKED_ROLES → dictGet s.roleClaims r = some o → o.ws ≠ ws →
      closed ws = false →
      handleRoleClaim closed s ws (some r) sender =
        (s, [(ws, ServerMsg.roleResult r false)]) := by
  intro closed s ws r sender o hr hget hws hcl
  simp only [handleRoleClaim]
  have hb : (o.ws == ws) = false := by simpa using hws
  rw [if_pos hr, hget]
  simp only [hb]
  rw [if_neg Bool.false_ne_true, hcl, if_neg Bool.false_ne_true]

/-- Witness for C8 at a concrete state. -/
theorem failed_claim_frame_witness :
    handleRoleClaim (fun _ => false)
        { clients := [5, 6], roleClaims := [("Capper 1", { id := some "X", ws := 5 })] }
        6 (some "Capper 1") (some "Y") =
      ({ clients := [5, 6],
         roleClaims := [("Capper 1", { id := some "X", ws := 5 })] },
       [(6, ServerMsg.roleResult "Capper 1" false)]) :=
  failed_claim_frame (fun _ => false) _ 6 "Capper 1" (some "Y")
    { id := some "X", ws := 5 } (by decide) (by decide) (by decide) rfl

/-! ## Disconnect semantics -/

theorem dictGet_release_eq_none {d : RoleClaims} (h : keysNodup d)
    {role : String} {o : Owner} {ws : ConnId} (hm : (role, o) ∈ d)
    (hw : o.ws = ws) : dictGet (releaseRolesForClient d ws) role = none := by
  unfold dictGet
  rw [Option.map_eq_none', List.find?_eq_none]
  intro q hq hqk
  have hq' := List.mem_filter.mp hq
  have hkey : q.1 = role := beq_iff_eq.mp hqk
  have hmem : (q.1, q.2) ∈ d := hq'.1
  rw [hkey] at hmem
  have hqo : q.2 = o := mem_unique_of_keysNodup h hmem hm
  have hpred := hq'.2
  rw [hqo, hw] at hpred
  simp at hpred

/-- Claim C6: a disconnect unclaims every locked role bound to the closing
connection, drops the connection from the registry, and — when any role was
released — emits exactly one roleStatus message per remaining connection,
whose single payload covers all roles released by the disconnect; when
nothing was held, no broadcast is sent at all. -/
theorem disconnect_releases_ownership :
    ∀ (closed : ConnId → Bool) (s : ServerState) (ws : ConnId),
      (keysNodup s.roleClaims → ∀ (role : String) (o : Owner),
        (role, o) ∈ s.roleClaims → o.ws = ws →
        dictGet (handleDisconnect closed s ws).1.roleClaims role = none) ∧
      ws ∉ (handleDisconnect closed s ws).1.clients ∧
      (s.roleClaims.any (fun p => p.2.ws == ws) = true →
        (handleDisconnect closed s ws).2 =
          (handleDisconnect closed s ws).1.clients.map
            (fun c => (c, ServerMsg.roleStatus
              (rolesPayload (releaseRolesForClient s.roleClaims ws))))) ∧
      (s.roleClaims.any (fun p => p.2.ws == ws) = false →
        (handleDisconnect closed s ws).2 = []) := by
  intro closed s ws
  by_cases hrel : s.roleClaims.any (fun p => p.2.ws == ws) = true
  · have hd : handleDisconnect closed s ws =
        ({ clients := (s.clients.filter (fun c => c != ws)).filter
             (fun c => !(closed c)),
           roleClaims := releaseRolesForClient s.roleClaims ws },
         ((s.clients.filter (fun c => c != ws)).filter
             (fun c => !(closed c))).map
           (fun c => (c, ServerMsg.roleStatus
             (rolesPayload (releaseRolesForClient s.roleClaims ws))))) := by
      simp only [handleDisconnect, broadcastAll]
      rw [if_pos hrel]
    rw [hd]
    refine ⟨?_, ?_, ?_, ?_⟩
    · intro hnd role o hm hw
      exact dictGet_release_eq_none hnd hm hw
    · intro hmem
      have h1 := (List.mem_filter.mp hmem).1
      have h2 := (List.mem_filter.mp h1).2
      simp at h2
    · intro _
      rfl
    · intro hany0
      rw [hany0] at hrel
      cases hrel
  · have hd : handleDisconnect closed s ws =
        ({ clients := s.clients.filter (fun c => c != ws),
           roleClaims := releaseRolesForClient s.roleClaims ws }, []) := by
      simp only [handleDisconnect]
      rw [if_neg hrel]
    rw [hd]
    refine ⟨?_, ?_, ?_, ?_⟩
    · intro hnd role o hm hw
      exact dictGet_release_eq_none hnd hm hw
    · intro hmem
      have h2 := (List.mem_filter.mp hmem).2
      simp at h2
    · intro hany
      exact absurd hany hrel
    · intro _
      rfl

/-- Witness for C6: claiming "Capper 1" on connection 7 and disconnecting 7
leaves the role unclaimed. -/
theorem disconnect_releases_ownership_witness :
    dictGet (handleDisconnect (fun _ => false)
        { clients := [7], roleClaims := [("Capper 1", { id := some "X", ws := 7 })] }
        7).1.roleClaims "Capper 1" = none :=
  (disconnect_releases_ownership (fun _ => false)
      { clients := [7], roleClaims := [("Capper 1", { id := some "X", ws := 7 })] }
      7).1
    (by simp [keysNodup]) "Capper 1" { id := some "X", ws := 7 }
    (by decide) rfl

/-! ## Fan-out properties -/

theorem mem_connectRegister (clients : List ConnId) (ws : ConnId) :
    ws ∈ connectRegister clients ws := by
  unfold connectRegister
  split
  · assumption
  · simp

/-- Claim C5: a start or board_update event from connection A is re-serialized
with its fields unchanged and forwarded to every other currently connected
(open) connection, and no send ever targets A itself. -/
theorem fanout_exclusion :
    ∀ (closed : ConnId → Bool) (s : ServerState) (ws : ConnId)
      (d : StartData) (bd : BoardUpdateData),
      (∀ (c : ConnId) (m : ServerMsg), (c, m) ∈ (handleStart closed s ws d).2 →
        c ≠ ws ∧ m = ServerMsg.startB (startBroadcast d)) ∧
      (∀ c : ConnId, c ∈ s.clients → c ≠ ws → closed c = false →
        (c, ServerMsg.startB (startBroadcast d)) ∈ (handleStart closed s ws d).2) ∧
      (∀ (c : ConnId) (m : ServerMsg), (c, m) ∈ (handleBoardUpdate closed s ws bd).2 →
        c ≠ ws ∧ m = ServerMsg.boardB bd) ∧
      (∀ c : ConnId, c ∈ s.clients → c ≠ ws → closed c = false →
        (c, ServerMsg.boardB bd) ∈ (handleBoardUpdate closed s ws bd).2) ∧
      (startBroadcast d).seconds = d.seconds ∧
      (startBroadcast d).sender = d.sender ∧
      (∀ k : Int, d.capper = some k → (startBroadcast d).capper = k) := by
  intro closed s ws d bd
  refine ⟨?_, ?_, ?_, ?_, rfl, rfl, ?_⟩
  · intro c m hm
    simp only [handleStart, fanout, List.mem_map, List.mem_filter] at hm
    obtain ⟨c', ⟨hmem, hpred⟩, heq⟩ := hm
    obtain ⟨h1, h2⟩ := Prod.mk.injEq _ _ _ _ ▸ heq
    subst h1
    simp only [Bool.and_eq_true, bne_iff_ne] at hpred
    exact ⟨hpred.1, h2.symm⟩
  · intro c hmem hne hcl
    simp only [handleStart, fanout, List.mem_map, List.mem_filter]
    exact ⟨c, ⟨hmem, by simp [hne, hcl]⟩, rfl⟩
  · intro c m hm
    simp only [handleBoardUpdate, fanout, List.mem_map, List.mem_filter] at hm
    obtain ⟨c', ⟨hmem, hpred⟩, heq⟩ := hm
    obtain ⟨h1, h2⟩ := Prod.mk.injEq _ _ _ _ ▸ heq
    subst h1
    simp only [Bool.and_eq_true, bne_iff_ne] at hpred
    exact ⟨hpred.1, h2.symm⟩
  · intro c hmem hne hcl
    simp only [handleBoardUpdate, fanout, List.mem_map, List.mem_filter]
    exact ⟨c, ⟨hmem, by simp [hne, hcl]⟩, rfl⟩
  · intro k hk
    simp [startBroadcast, hk]

/-- Witness for C5 at a concrete registry. -/
theorem fanout_exclusion_witness :
    (0, ServerMsg.startB (startBroadcast { seconds := some 35, sender := some "A", capper := some 1 })) ∈
      (handleStart (fun _ => false) { clients := [0, 1], roleClaims := [] } 1
        { seconds := some 35, sender := some "A", capper := some 1 }).2 :=
  (fanout_exclusion (fun _ => false) { clients := [0, 1], roleClaims := [] } 1
      { seconds := some 35, sender := some "A", capper := some 1 }
      { board := none, index := none, state := none, sender := none }).2.1
    0 (by decide) (by decide) rfl

/-- Claim C7: during event fan-out and role-status broadcast, a closed
connection's failed send is contained to that connection: no message is
recorded for it and it is dropped from the registry, while every other open
connection still receives the message and stays registered. -/
theorem partial_failure_isolation :
    ∀ (closed : ConnId → Bool) (s : ServerState) (ws : ConnId) (d : StartData)
      (clients : List ConnId) (msg : ServerMsg),
      (∀ b : ConnId, b ∈ s.clients → b ≠ ws → closed b = true →
        (∀ m : ServerMsg, (b, m) ∉ (handleStart closed s ws d).2) ∧
        b ∉ (handleStart closed s ws d).1.clients) ∧
      (∀ c : ConnId, c ∈ s.clients → c ≠ ws → closed c = false →
        (c, ServerMsg.startB (startBroadcast d)) ∈ (handleStart closed s ws d).2 ∧
        c ∈ (handleStart closed s ws d).1.clients) ∧
      (∀ b : ConnId, b ∈ clients → closed b = true →
        (∀ m : ServerMsg, (b, m) ∉ (broadcastAll clients closed msg).1) ∧
        b ∉ (broadcastAll clients closed msg).2) ∧
      (∀ c : ConnId, c ∈ clients → closed c = false →
        (c, msg) ∈ (broadcastAll clients closed msg).1) := by
  intro closed s ws d clients msg
  refine ⟨?_, ?_, ?_, ?_⟩
  · intro b hmem hne hcl
    constructor
    · intro m hm
      simp only [handleStart, fanout, List.mem_map, List.mem_filter] at hm
      obtain ⟨c', ⟨_, hpred⟩, heq⟩ := hm
      obtain ⟨h1, _⟩ := Prod.mk.injEq _ _ _ _ ▸ heq
      subst h1
      simp [hcl] at hpred
    · intro hm
      simp only [handleStart, fanout, List.mem_filter] at hm
      simp [hne, hcl] at hm
  · intro c hmem hne hcl
    constructor
    · simp only [handleStart, fanout, List.mem_map, List.mem_filter]
      exact ⟨c, ⟨hmem, by simp [hne, hcl]⟩, rfl⟩
    · simp only [handleStart, fanout, List.mem_filter]
      exact ⟨hmem, by simp [hne, hcl]⟩
  · intro b hmem hcl
    constructor
    · intro m hm
      simp only [broadcastAll, List.mem_map, List.mem_filter] at hm
      obtain ⟨c', ⟨_, hpred⟩, heq⟩ := hm
      obtain ⟨h1, _⟩ := Prod.mk.injEq _ _ _ _ ▸ heq
      subst h1
      simp [hcl] at hpred
    · intro hm
      simp only [broadcastAll, List.mem_filter] at hm
      simp [hcl] at hm
  · intro c hmem hcl
    simp only [broadcastAll, List.mem_map, List.mem_filter]
    exact ⟨c, ⟨hmem, by simp [hcl]⟩, rfl⟩

/-- Witness for C7: connections 0 (A), 1 (B, closed), 2 (C); broadcasting a
role status reaches A, and B is dropped from the registry. -/
theorem partial_failure_isolation_witness :
    (0, ServerMsg.roleStatus []) ∈
      (broadcastAll [0, 1, 2] (fun c => c == 1) (ServerMsg.roleStatus [])).1 ∧
    (1 : ConnId) ∉ (broadcastAll [0, 1, 2] (fun c => c == 1)
      (ServerMsg.roleStatus [])).2 :=
  ⟨(partial_failure_isolation (fun c => c == 1) serverInit 0
      { seconds := none, sender := none, capper := none } [0, 1, 2]
      (ServerMsg.roleStatus [])).2.2.2 0 (by decide) rfl,
   ((partial_failure_isolation (fun c => c == 1) serverInit 0
      { seconds := none, sender := none, capper := none } [0, 1, 2]
      (ServerMsg.roleStatus [])).2.2.1 1 (by decide) rfl).2⟩

theorem mem_fanout_sends (clients : List ConnId) (sender : ConnId)
    (closed : ConnId → Bool) (msg : ServerMsg) (c : ConnId)
    (hmem : c ∈ clients) (hne : c ≠ sender) (hcl : closed c = false) :
    (c, msg) ∈ (fanout clients sender closed msg).1 := by
  simp only [fanout, List.mem_map, List.mem_filter]
  exact ⟨c, ⟨hmem, by simp [hne, hcl]⟩, rfl⟩

/-- Claim C10: a connection is registered before the shared-secret check
runs: right after the pre-auth connect step (and still after a failed auth
reply, before the handler returns) the connection is in the registry, so a
start or board_update fanned out from another connection is delivered to it
even though it never authenticated. -/
theorem preauth_connection_receives_fanout :
    ∀ (s : ServerState) (ws : ConnId) (closed : ConnId → Bool)
      (d : StartData) (bd : BoardUpdateData) (a : ConnId),
      ws ∈ (connectPreAuth s ws).1.clients ∧
      (authFailedReply (connectPreAuth s ws).1 ws).1 = (connectPreAuth s ws).1 ∧
      (a ≠ ws → closed ws = false →
        (ws, ServerMsg.startB (startBroadcast d)) ∈
          (handleStart closed (connectPreAuth s ws).1 a d).2) ∧
      (a ≠ ws → closed ws = false →
        (ws, ServerMsg.boardB bd) ∈
          (handleBoardUpdate closed (connectPreAuth s ws).1 a bd).2) := by
  intro s ws closed d bd a
  have hmem : ws ∈ (connectPreAuth s ws).1.clients :=
    mem_connectRegister s.clients ws
  refine ⟨hmem, rfl, ?_, ?_⟩
  · intro hne hcl
    exact mem_fanout_sends _ a closed _ ws hmem (fun h => hne h.symm) hcl
  · intro hne hcl
    exact mem_fanout_sends _ a closed _ ws hmem (fun h => hne h.symm) hcl

/-- Witness for C10: with a password set, a fresh connection 9 that has not
authenticated still receives a start event fanned out by connection 0. -/
theorem preauth_connection_receives_fanout_witness :
    (9, ServerMsg.startB (startBroadcast { seconds := some 10, sender := some "A", capper := some 2 })) ∈
      (handleStart (fun _ => false)
        (connectPreAuth { clients := [0], roleClaims := [] } 9).1 0
        { seconds := some 10, sender := some "A", capper := some 2 }).2 :=
  (preauth_connection_receives_fanout { clients := [0], roleClaims := [] } 9
      (fun _ => false) { seconds := some 10, sender := some "A", capper := some 2 }
      { board := none, index := none, state := none, sender := none } 0).2.2.1
    (by decide) rfl

/-! ## Client reducer properties -/

/-- Counterexample to claim C3 as stated: applying a board_update with
state 1 (a value in the claim's admitted range) to cell (defense, 1) stores
0, not 1 — the reducer normalizes state 1 to 0 (main.py lines 1171-1172)
before the write, so the raw cell read does not return the state carried by
the last applied update. -/
theorem board_update_raw_write_counterexample :
    (applyBoardUpdate clientInit "defense" 1 1).defense[1]? = some 0 ∧
    (applyBoardUpdate clientInit "defense" 1 1).defense[1]? ≠ some 1 := by
  decide

/-- Claim C3 (amended): for a known board, an in-range index and a state in
{0, 1, 2}, the reducer writes the cell unconditionally — no timestamp or
version check, last write wins — but stores `state` with 1 normalized to 0:
the raw cell afterwards reads `state` for state 0 or 2 and reads 0 for
state 1. -/
theorem apply_board_update_last_write_wins :
    ∀ (st : ClientState) (board : String) (index state : Int) (bs : List Int),
      boardOf st board = some bs → 0 ≤ index → index < (bs.length : Int) →
      (state = 0 ∨ state = 1 ∨ state = 2) →
      boardOf (applyBoardUpdate st board index state) board =
        some (bs.set index.toNat (if state = 1 then 0 else state)) ∧
      (bs.set index.toNat (if state = 1 then 0 else state))[index.toNat]? =
        some (if state = 1 then 0 else state) := by
  intro st board index state bs hb h0 hlen hstate
  have hidx : index.toNat < bs.length := by omega
  refine ⟨?_, List.getElem?_set_self hidx⟩
  have hguard : ¬(index < 0 ∨ (bs.length : Int) ≤ index) := by omega
  by_cases hd : board = "defense"
  · subst hd
    have hbs : bs = st.defense := by
      have h := hb
      simp [boardOf] at h
      exact h.symm
    subst hbs
    simp [applyBoardUpdate, boardOf, setBoardList, hguard, hstate]
  · by_cases ho : board = "offense"
    · subst ho
      have hbs : bs = st.offense := by
        have h := hb
        simp [boardOf] at h
        exact h.symm
      subst hbs
      simp [applyBoardUpdate, boardOf, setBoardList, hguard, hstate]
    · exfalso
      simp [boardOf, hd, ho] at hb

/-- Witness for the amended C3 at a concrete update. -/
theorem apply_board_update_last_write_wins_witness :
    boardOf (applyBoardUpdate clientInit "offense" 2 2) "offense" =
      some ((List.replicate BOARD_ASSETS.length (0 : Int)).set 2 2) :=
  (apply_board_update_last_write_wins clientInit "offense" 2 2
      (List.replicate BOARD_ASSETS.length 0) rfl (by decide) (by decide)
      (by decide)).1

/-- Claim C4: the effective board state is derived per board from the raw
state alone — markers equal to 1 collapse to 0, and a destroyed generator
(raw index 0 equal to 2) forces every other cell to display 1 regardless of
its own raw value; in particular [2,0,1,2] displays as [2,1,1,1] and
[0,1,2,1] as [0,0,2,0]. -/
theorem effective_board_derivation :
    ∀ states : List Int,
      (effectiveBoardStates states).length = states.length ∧
      (∀ (i : Nat) (v : Int), states[i]? = some v →
        (effectiveBoardStates states)[i]? =
          some (if i ≠ 0 ∧ states[0]? = some 2 then 1
                else if v = 1 then 0 else v)) ∧
      effectiveBoardStates [2, 0, 1, 2] = [2, 1, 1, 1] ∧
      effectiveBoardStates [0, 1, 2, 1] = [0, 0, 2, 0] := by
  intro states
  refine ⟨?_, ?_, by decide, by decide⟩
  · cases states with
    | nil => rfl
    | cons a l =>
      simp only [effectiveBoardStates, collapseInProgress, List.map_cons]
      by_cases h1 : (if a = 1 then (0 : Int) else a) = 2 <;> simp [h1]
  · intro i v hv
    cases states with
    | nil => simp at hv
    | cons a l =>
      simp only [effectiveBoardStates, collapseInProgress, List.map_cons]
      by_cases ha : a = 2
      · subst ha
        rw [if_neg (by norm_num : ¬(2 : Int) = 1)] at *
        rw [if_pos rfl]
        cases i with
        | zero =>
          have hva : 2 = v := by simpa using hv
          subst hva
          simp
        | succ j =>
          have hj : l[j]? = some v := by simpa using hv
          rw [List.getElem?_cons_succ, List.getElem?_map, List.getElem?_map, hj]
          simp
      · have hfa : (if a = 1 then 0 else a) ≠ 2 := by
          by_cases h1 : a = 1
          · simp [h1]
          · simp [h1, ha]
        rw [if_neg hfa]
        have hcond : ¬(i ≠ 0 ∧ ((a :: l) : List Int)[0]? = some 2) := by
          rintro ⟨_, h2⟩
          rw [List.getElem?_cons_zero] at h2
          exact ha (Option.some.inj h2)
        rw [if_neg hcond]
        cases i with
        | zero =>
          have hva : a = v := by simpa using hv
          subst hva
          simp
        | succ j =>
          have hj : l[j]? = some v := by simpa using hv
          rw [List.getElem?_cons_succ, List.getElem?_map, hj]
          rfl

/-- Witness for C4 at the spec's generator-dependency example. -/
theorem effective_board_derivation_witness :
    (effectiveBoardStates [2, 0, 1, 2])[3]? = some 1 := by
  have h := (effective_board_derivation [2, 0, 1, 2]).2.1 3 2 (by decide)
  simpa using h

/-- Claim C9: an incoming start or board_update whose sender equals the
local identity is discarded unconditionally by both the WebSocket listener
and the UDP listener — the client state (boards, timers, role view) is
untouched. -/
theorem own_echo_suppression :
    ∀ (myId : String) (st : ClientState) (m : ClientMsg),
      senderOf m = some myId →
      wsListen myId st m = st ∧ udpListen myId st m = st := by
  intro myId st m h
  refine ⟨?_, by simp [udpListen, h]⟩
  cases m with
  | start d =>
    have hs : d.sender = some myId := h
    cases hsec : d.seconds with
    | none => simp [wsListen, hsec]
    | some sec => simp [wsListen, hsec, hs]
  | boardUpdate d =>
    have hs : d.sender = some myId := h
    simp [wsListen, hs]
  | roleStatus roles => cases h
  | roleResult r ok => cases h

/-- Witness for C9 at a concrete own-echo message. -/
theorem own_echo_suppression_witness :
    wsListen "me" clientInit (ClientMsg.boardUpdate { board := some "defense", index := some 1, state := some 2, sender := some "me" }) = clientInit :=
  (own_echo_suppression "me" clientInit
    (ClientMsg.boardUpdate { board := some "defense", index := some 1, state := some 2, sender := some "me" }) rfl).1
